import Mathlib

set_option autoImplicit false

/-! Verification of the Asset Resolution and Content Selection Engine of the
504th Tactical Bot repository.  The Python sources (data/data_manager.py,
config/settings.py, cogs/base_selector.py, cogs/maps_command.py) are shallowly
embedded below: JSON data becomes an inductive value type, Python dicts become
association lists preserving insertion order, raising code returns Except, and
the class-level asset cache of Settings becomes explicit state passing. -/

/-- Kinds of Python exceptions the embedded code can raise. -/
inductive PyErr where
  | valueError
  | typeError
  | attributeError
deriving DecidableEq, Repr

/-- JSON-like values, the shape of the records that DataManager.load_data
returns from the data files. -/
inductive JVal where
  | null
  | bool (b : Bool)
  | num (n : Int)
  | str (s : String)
  | arr (elems : List JVal)
  | obj (fields : List (String × JVal))

/-- A Python dict with string keys, as an insertion-ordered association list
with distinct keys (the shape of every mapping the sources manipulate). -/
abbrev PyDict := List (String × JVal)

/-- Python truthiness, used by the sources in tests such as the line
if not items of base_selector.py. -/
def pyTruthy : JVal → Bool
  | .null => false
  | .bool b => b
  | .num n => n != 0
  | .str s => s ≠ ""
  | .arr xs => ¬ xs.isEmpty
  | .obj fs => ¬ fs.isEmpty

/-! ## Python string primitives used by the sources -/

/-- Python str.title restricted to ASCII letters: the first letter of every
maximal letter run is uppercased, the remaining letters lowercased, other
characters left unchanged.  Models the calls key.title() in the sources. -/
def pyTitleAux : Bool → List Char → List Char
  | _, [] => []
  | prevAlpha, c :: rest =>
    if c.isAlpha then
      (if prevAlpha then c.toLower else c.toUpper) :: pyTitleAux true rest
    else
      c :: pyTitleAux false rest

/-- String wrapper for pyTitleAux. -/
def pyTitle (s : String) : String := ⟨pyTitleAux false s.data⟩

/-- Python str.rstrip with no argument: remove trailing whitespace. -/
def rstripChars (cs : List Char) : List Char :=
  (cs.reverse.dropWhile Char.isWhitespace).reverse

/-- Python rstrip applied with a slash argument, as in the line
EXTERNAL_ASSET_BASE_URL.rstrip of settings.py: remove every trailing slash. -/
def rstripSlashes (s : String) : String :=
  ⟨(s.data.reverse.dropWhile (fun c => c = '/')).reverse⟩

/-- Python str.replace on character lists: replace every occurrence of the
(nonempty) pattern, scanning left to right without overlap, exactly as the
CPython scan does.  The fuel argument, always instantiated with the length of
the scanned string, keeps the recursion structural; one scan step consumes at
least one character, so the fuel never runs out.  The empty-pattern case,
unused by the sources, returns the input unchanged. -/
def pyReplaceAux (pat repl : List Char) : Nat → List Char → List Char
  | _, [] => []
  | 0, s => s
  | fuel + 1, c :: rest =>
    if pat ≠ [] ∧ pat.isPrefixOf (c :: rest) then
      repl ++ pyReplaceAux pat repl fuel (rest.drop (pat.length - 1))
    else
      c :: pyReplaceAux pat repl fuel rest

/-- Python str.replace on character lists, entry point. -/
def pyReplaceL (pat repl s : List Char) : List Char :=
  pyReplaceAux pat repl s.length s

/-- String wrapper for pyReplaceL. -/
def pyReplace (s pat repl : String) : String :=
  ⟨pyReplaceL pat.data repl.data s.data⟩

/-- The transport marker stripped from thumbnail references in
base_selector.py (create_embed and get_files). -/
def attachMarker : String := "attachment://"

/-- Normalization of a transport-prefixed asset reference, as performed on
thumbnail references in base_selector.py: when the string starts with the
attachment marker, every occurrence of the marker is removed by str.replace;
otherwise the string is returned unchanged. -/
def normalizeAttachmentRef (s : String) : String :=
  if attachMarker.data.isPrefixOf s.data then pyReplace s attachMarker "" else s

/-- pathlib suffix of a filename: the substring from the last dot on, when
that dot is neither the first nor the last character; empty otherwise.
Models file_path.suffix in settings.py. -/
def pathSuffix (name : String) : String :=
  let cs := name.data
  match cs.reverse.findIdx? (fun c => c = '.') with
  | none => ""
  | some k => if 0 < cs.length - 1 - k ∧ 0 < k then ⟨cs.drop (cs.length - 1 - k)⟩ else ""

/-- Python str.lower restricted to ASCII. -/
def lowerStr (s : String) : String := ⟨s.data.map Char.toLower⟩

/-- Value of one hexadecimal digit. -/
def hexVal? (c : Char) : Option Nat :=
  if '0' ≤ c ∧ c ≤ '9' then some (c.toNat - '0'.toNat)
  else if 'a' ≤ c ∧ c ≤ 'f' then some (c.toNat - 'a'.toNat + 10)
  else if 'A' ≤ c ∧ c ≤ 'F' then some (c.toNat - 'A'.toNat + 10)
  else none

/-- Fold a nonempty all-hexadecimal digit list into its value. -/
def hexDigits? : List Char → Option Nat
  | [] => none
  | [c] => hexVal? c
  | c :: rest => do
    let d ← hexVal? c
    let r ← hexDigits? rest
    pure (d * 16 ^ rest.length + r)

/-- Python int with base 16 applied to a string: surrounding whitespace is
ignored, an optional sign and an optional 0x or 0X marker precede a nonempty
run of hexadecimal digits; anything else is a ValueError (none here).
Digit-group underscores, unused by the data files, are not modelled. -/
def pyIntHex? (s : String) : Option Int :=
  let cs := (s.data.dropWhile Char.isWhitespace).reverse.dropWhile Char.isWhitespace |>.reverse
  let (sign, cs) : Int × List Char :=
    match cs with
    | '+' :: r => (1, r)
    | '-' :: r => (-1, r)
    | r => (1, r)
  let cs :=
    match cs with
    | '0' :: x :: r => if x = 'x' ∨ x = 'X' then r else '0' :: x :: r
    | r => r
  match hexDigits? cs with
  | some n => some (sign * n)
  | none => none

/-! ## DataManager (data/data_manager.py) -/

/-- The DataManager of data_manager.py, abstracted over the file system: the
load_data field gives, for each category name, the parsed JSON mapping of the
category file.  In the source, load_data reads and caches the JSON file and
returns an empty mapping when the file is missing or corrupt; that fallback is
part of the function modelled here, so load_data is total. -/
structure DataManager where
  load_data : String → PyDict

/-- DataManager.get_factions: the list of top-level keys of the category data
(in the source, list of data.keys()). -/
def get_factions (dm : DataManager) (category : String) : List String :=
  (dm.load_data category).map Prod.fst

/-- Key membership in a Python dict. -/
def hasKey (d : PyDict) (k : String) : Bool :=
  d.any (fun p => p.1 = k)

/-- DataManager.get_items: when a faction is given, is truthy (Python: a
nonempty string) and is a key of the data, the value stored under it is
returned (whatever JSON value that is); otherwise the whole top-level mapping
is returned. -/
def get_items (dm : DataManager) (category : String) (faction : Option String) : JVal :=
  let data := dm.load_data category
  match faction with
  | some f =>
    if f ≠ "" ∧ hasKey data f then (data.lookup f).getD (.obj []) else .obj data
  | none => .obj data

/-- The empty mapping, the NotFound encoding of DataManager.get_item. -/
def emptyRecord : JVal := .obj []

/-- DataManager.get_item: items.get with the empty mapping as default, where
items is the result of get_items.  When get_items returns a value that is not
a mapping (possible when a faction key holds a non-object value), the
attribute access items.get raises in the source, modelled as an error. -/
def get_item (dm : DataManager) (category : String) (item_key : String)
    (faction : Option String) : Except PyErr JVal :=
  match get_items dm category faction with
  | .obj fields => .ok ((fields.lookup item_key).getD emptyRecord)
  | _ => .error .attributeError

/-! ## Settings asset store (config/settings.py) -/

/-- The file system under the configured assets root, as seen by settings.py:
rootExists models ASSETS_DIR.exists, and files lists every file reachable
below the root by its path relative to the root, with its byte size.  A path
containing no slash is a file directly under the root (what iterdir visits). -/
structure AssetFS where
  rootExists : Bool
  files : List (String × Nat)

/-- A relative path names an existing file below the assets root. -/
def fileExists (fs : AssetFS) (rel : String) : Bool :=
  fs.files.any (fun p => p.1 = rel)

/-- Byte size of a file below the assets root (0 when absent). -/
def fileSize (fs : AssetFS) (rel : String) : Nat :=
  ((fs.files.lookup rel).getD 0)

/-- The mutable class-level state of Settings: the asset cache (filenames in
insertion order; each cached filename stands for the path root slash filename
recorded by the source) and the initialized flag. -/
structure AssetState where
  cache : List String
  cacheInitialized : Bool

/-- The state at process start: empty cache, not initialized. -/
def initialAssetState : AssetState := { cache := [], cacheInitialized := false }

/-- Python dict insertion keyed by filename: a repeated key keeps its original
position (the stored value is determined by the key here, so nothing else
changes), a new key is appended. -/
def cacheInsert (c : List String) (k : String) : List String :=
  if c.contains k then c else c ++ [k]

/-- The supported image extension set of initialize_asset_cache. -/
def supportedExts : List String := [".png", ".jpg", ".jpeg", ".gif", ".webp"]

/-- A filename whose lowercased pathlib suffix is a supported image
extension. -/
def isImageFile (name : String) : Bool :=
  supportedExts.contains (lowerStr (pathSuffix name))

/-- The files ASSETS_DIR.iterdir visits: files directly under the root,
that is, whose relative path contains no slash. -/
def iterdirFiles (fs : AssetFS) : List String :=
  (fs.files.map Prod.fst).filter (fun n => ¬ n.data.contains '/')

/-- Settings.initialize_asset_cache: a no-op when already initialized; when
the root is missing, only the flag is set; otherwise every file directly
under the root with a supported image extension is inserted into the cache
and the flag is set. -/
def initialize_asset_cache (fs : AssetFS) (st : AssetState) : AssetState :=
  if st.cacheInitialized then st
  else if ¬ fs.rootExists then { st with cacheInitialized := true }
  else
    { cache := ((iterdirFiles fs).filter isImageFile).foldl cacheInsert st.cache,
      cacheInitialized := true }

/-- Settings.refresh_asset_cache: reset the flag, clear the cache, rebuild. -/
def refresh_asset_cache (fs : AssetFS) (_st : AssetState) : AssetState :=
  initialize_asset_cache fs { cache := [], cacheInitialized := false }

/-- An opaque byte source: the suggested filename together with the byte size
of the backing file (the observable content of a discord File object for the
size accounting in get_files). -/
structure ByteSource where
  name : String
  size : Nat
deriving DecidableEq, Repr

/-- Settings.get_asset_file: None under the external policy; otherwise the
cache is lazily initialized, a cache hit returns the file, a miss falls back
to a direct probe of root slash filename and, when the probe finds a file,
inserts it into the cache (without any extension check) and returns it; a
missing file returns None.  Returns the result paired with the new state. -/
def get_asset_file (useExternal : Bool) (fs : AssetFS) (filename : String)
    (st : AssetState) : Option ByteSource × AssetState :=
  if useExternal then (none, st)
  else
    let st1 := initialize_asset_cache fs st
    if st1.cache.contains filename then
      (some ⟨filename, fileSize fs filename⟩, st1)
    else if fileExists fs filename then
      (some ⟨filename, fileSize fs filename⟩,
       { st1 with cache := cacheInsert st1.cache filename })
    else
      (none, st1)

/-- Settings.get_asset_url: with the external policy on and a truthy (Python:
nonempty) base URL, the base URL with all trailing slashes removed, a slash
and the filename; otherwise the attachment marker followed by the filename. -/
def get_asset_url (useExternal : Bool) (baseUrl : String) (filename : String) : String :=
  if useExternal ∧ baseUrl ≠ "" then
    rstripSlashes baseUrl ++ "/" ++ filename
  else
    "attachment://" ++ filename

/-! ## Selection dropdowns and rendering (cogs/base_selector.py, cogs/maps_command.py) -/

/-- One selectable option of a dropdown, holding exactly the arguments the
sources pass to the SelectOption constructor of the transport library (which
is an external collaborator and performs no work modelled here): the label
and description keep whatever JSON value the record supplied, the value is
the item key, the emoji is null when not passed. -/
structure SelectOption where
  label : JVal
  value : String
  description : JVal
  emoji : JVal

/-- Python slicing with upper bound 100 as applied to the short_description
value in BaseSelectorDropdown: strings and lists are sliceable, any other
value raises TypeError (caught by the enclosing try in the source). -/
def pySlice100 : JVal → Except PyErr JVal
  | .str s => .ok (.str ⟨s.data.take 100⟩)
  | .arr xs => .ok (.arr (xs.take 100))
  | _ => .error .typeError

/-- The try branch of the option loop in BaseSelectorDropdown: attribute
lookups on the item record (raising AttributeError when the record is not a
mapping, for example a null entry) and the slice of the short description
(raising TypeError when unsliceable).  Transport-library validation of the
stored label and emoji is outside this repository and not modelled; it could
only make the fallback fire in more cases. -/
def mkOptionTry (key : String) (item : JVal) : Except PyErr SelectOption :=
  match item with
  | .obj fields => do
    let desc ← pySlice100 ((fields.lookup "short_description").getD (.str ""))
    .ok { label := (fields.lookup "display_name").getD (.str (pyTitle key)),
          value := key,
          description := desc,
          emoji := (fields.lookup "emoji").getD .null }
  | _ => .error .attributeError

/-- The fallback option the except branch of the option loop appends. -/
def fallbackOption (key : String) : SelectOption :=
  { label := .str (pyTitle key), value := key,
    description := .str "Item details unavailable", emoji := .null }

/-- One option per item record: the try result, or the fallback option when
the try raised. -/
def mkOption (key : String) (item : JVal) : SelectOption :=
  match mkOptionTry key item with
  | .ok o => o
  | .error _ => fallbackOption key

/-- The placeholder option used when the item mapping is empty. -/
def noItemsOption : SelectOption :=
  { label := .str "No items available", value := "none",
    description := .str "No content found for this category", emoji := .null }

/-- The full option list BaseSelectorDropdown builds from an item mapping,
before the cap: one placeholder when the mapping is falsy (empty), otherwise
one option per record in mapping order. -/
def baseSelectorOptions (items : PyDict) : List SelectOption :=
  if items.isEmpty then [noItemsOption]
  else items.map (fun p => mkOption p.1 p.2)

/-- The options BaseSelectorDropdown actually passes to its dropdown widget:
the source writes options[:25], keeping only the first 25. -/
def baseSelectorShownOptions (items : PyDict) : List SelectOption :=
  (baseSelectorOptions items).take 25

/-- The faction_config table of FactionSelectorDropdown. -/
def factionConfig : List (String × JVal × JVal) :=
  [("us", .str "United States", .str "🇺🇸"),
   ("german", .str "Germany", .str "🇩🇪"),
   ("soviet", .str "Soviet Union", .str "🇷🇺"),
   ("british", .str "United Kingdom", .str "🇬🇧"),
   ("ussr", .str "Soviet Union", .str "🇷🇺")]

/-- One option of FactionSelectorDropdown: the configured display name and
emoji when the lowercased faction is in the table, otherwise the titled
faction with no emoji.  No description is passed. -/
def factionOption (faction : String) : SelectOption :=
  match factionConfig.lookup (lowerStr faction) with
  | some (name, emoji) =>
    { label := name, value := faction, description := .null, emoji := emoji }
  | none =>
    { label := .str (pyTitle faction), value := faction, description := .null, emoji := .null }

/-- The option list FactionSelectorDropdown passes to its widget: one option
per faction, with no cap applied in the source. -/
def factionSelectorOptions (factions : List String) : List SelectOption :=
  factions.map factionOption

/-- The characters the terrain truncation of PersistentMapDropdown breaks
at. -/
def breakChars : List Char := [' ', '.', ',', ';']

/-- Python range from a down to b exclusive with step minus one:
the list a, a-1, ..., b+1 (empty when a is at most b). -/
def rangeDown (a b : Nat) : List Nat :=
  (List.range (a - b)).map (fun j => a - j)

/-- The backward scan of PersistentMapDropdown: the first index i from 94
down to max 60 (length - 20) exclusive whose character is a break character,
defaulting to 94. -/
def findBreakAt (cs : List Char) : Nat :=
  match (rangeDown 94 (max 60 (cs.length - 20))).find?
      (fun i => match cs.get? i with
                | some c => breakChars.contains c
                | none => false) with
  | some i => i
  | none => 94

/-- The description PersistentMapDropdown derives from a terrain string:
terrains over 94 characters are cut at the scanned break position, trailing
whitespace removed and an ellipsis appended; an empty terrain becomes a fixed
message; finally everything is cut to 100 characters. -/
def mapDescription (terrain : String) : String :=
  let cs := terrain.data
  let d : List Char :=
    if 94 < cs.length then
      rstripChars (cs.take (findBreakAt cs)) ++ "...".data
    else if cs.isEmpty then
      "Tactical map information available".data
    else cs
  ⟨d.take 100⟩

/-- PersistentMapDropdown.get_display_name: the name_map entry for the
lowercased key when present, otherwise the titled key with underscores
replaced by spaces. -/
def mapDisplayName (key : String) : String :=
  let display := pyReplace (pyTitle key) "_" " "
  match ([("sme", "Sainte-Mère-Église"),
          ("phl", "Purple Heart Lane"),
          ("smdmv2", "Saint-Marie-du-Mont V2"),
          ("elalamein", "El Alamein")] : List (String × String)).lookup (lowerStr key) with
  | some n => n
  | none => display

/-- One option of PersistentMapDropdown, for a map record whose terrain field
is a string or absent.  A record that is not a mapping raises AttributeError
in the source (map_info.get); a record whose terrain holds a non-string value
raises in the source on len or rstrip for most types and is modelled
uniformly as a TypeError here — no such record yields an option either way. -/
def mapOptionTry (key : String) (info : JVal) : Except PyErr SelectOption :=
  match info with
  | .obj fields =>
    match (fields.lookup "terrain").getD (.str "") with
    | .str s =>
      .ok { label := .str (mapDisplayName key), value := key,
            description := .str (mapDescription s), emoji := .str "🗺️" }
    | _ => .error .typeError
  | _ => .error .attributeError

/-- The placeholder option PersistentMapDropdown uses when the maps data is
falsy. -/
def noMapsOption : SelectOption :=
  { label := .str "No maps available", value := "none",
    description := .str "No map data found", emoji := .null }

/-- The option loop of PersistentMapDropdown over the map records in mapping
order: one option per record, the first raising record propagating its
error. -/
def mapOptionList : PyDict → Except PyErr (List SelectOption)
  | [] => .ok []
  | p :: rest =>
    match mapOptionTry p.1 p.2, mapOptionList rest with
    | .ok o, .ok os => .ok (o :: os)
    | .error e, _ => .error e
    | .ok _, .error e => .error e

/-- The option list PersistentMapDropdown passes to its widget: the
placeholder when the maps data is empty, otherwise one option per map record
in mapping order, with no cap applied in the source. -/
def persistentMapOptions (maps_data : PyDict) : Except PyErr (List SelectOption) :=
  if maps_data.isEmpty then .ok [noMapsOption]
  else mapOptionList maps_data

/-- The fixed fallback color of create_embed. -/
def defaultEmbedColor : Int := 0x5865F2

/-- The color computation of BaseSelectorDropdown.create_embed: Python int
with base 16 of the color field (defaulting to the string 0x5865F2 when
absent), wrapped in a try that catches only ValueError and then falls back to
the fixed default.  A color value that is not a string makes int raise
TypeError, which the except clause does not catch. -/
def create_embed_color (item : PyDict) : Except PyErr Int :=
  match (item.lookup "color").getD (.str "0x5865F2") with
  | .str s =>
    match pyIntHex? s with
    | some n => .ok n
    | none => .ok defaultEmbedColor
  | _ => .error .typeError

/-- One fetch step of BaseSelectorDropdown.get_files: get_asset_file under
the local policy, appending the file when found and threading the cache
state. -/
def fetchOne (fs : AssetFS) (filename : String) (acc : List ByteSource × AssetState) :
    List ByteSource × AssetState :=
  match get_asset_file false fs filename acc.2 with
  | (some f, st) => (acc.1 ++ [f], st)
  | (none, st) => (acc.1, st)

/-- The fetch phase of BaseSelectorDropdown.get_files under the local policy:
the thumbnail reference (normalized first, exactly as in the source) when the
record has one, then each additional image reference in declared order.  The
thumbnail and additional_images fields of the item record are passed
explicitly, as the string values the data files hold. -/
def fetchFiles (fs : AssetFS) (thumbnail : Option String)
    (additionalImages : List String) (st : AssetState) :
    List ByteSource × AssetState :=
  let start : List ByteSource × AssetState :=
    match thumbnail with
    | none => ([], st)
    | some t => fetchOne fs (normalizeAttachmentRef t) ([], st)
  additionalImages.foldl (fun acc img => fetchOne fs img acc) start

/-- The fixed total-size budget of get_files, 25 MiB. -/
def sizeBudget : Nat := 25 * 1024 * 1024

/-- What get_files hands back: the attachment list, and whether the budget
was exceeded (the event on which the source logs its warning and truncates;
returned explicitly here as the observable outcome). -/
structure PreparedAssets where
  files : List ByteSource
  budgetExceeded : Bool
deriving DecidableEq, Repr

/-- BaseSelectorDropdown.get_files: the empty list under the external policy;
otherwise all successfully fetched sources, truncated to the first 3 exactly
when their summed byte size exceeds the budget. -/
def get_files (useExternal : Bool) (fs : AssetFS) (thumbnail : Option String)
    (additionalImages : List String) (st : AssetState) :
    PreparedAssets × AssetState :=
  if useExternal then ({ files := [], budgetExceeded := false }, st)
  else
    let fetched := fetchFiles fs thumbnail additionalImages st
    let total := (fetched.1.map ByteSource.size).sum
    if total > sizeBudget then
      ({ files := fetched.1.take 3, budgetExceeded := true }, fetched.2)
    else
      ({ files := fetched.1, budgetExceeded := false }, fetched.2)

/-- The first interactive step a generic category command shows. -/
inductive FlowStep where
  | noData
  | itemPending (items : JVal)
  | factionPending (factions : List String)

/-- The branch structure of GenericSelector.create_command: with at most one
faction key the command goes directly to item selection over the full item
mapping (or reports no data when that mapping is falsy); with two or more
faction keys it shows the faction selector first. -/
def create_command_flow (dm : DataManager) (category : String) : FlowStep :=
  let factions := get_factions dm category
  if factions.length ≤ 1 then
    let items := get_items dm category none
    if pyTruthy items then .itemPending items else .noData
  else
    .factionPending factions

/-- The NotFound test of BaseSelectorDropdown.callback on the resolved item:
the branch if not item_data, taken exactly when the item is falsy. -/
def callbackTreatsAsNotFound (item : JVal) : Bool :=
  ¬ pyTruthy item

/-- A flat fifteen-item category in the shape of the maps data: every
top-level value is an item record. -/
def mapsFlatData : PyDict :=
  [("carentan", .obj [("title", .str "Carentan")]),
   ("foy", .obj [("title", .str "Foy")]),
   ("stmariedumont", .obj [("title", .str "St Marie du Mont")]),
   ("stmereeglise", .obj [("title", .str "St Mere Eglise")]),
   ("hurtgen", .obj [("title", .str "Hurtgen Forest")]),
   ("utah", .obj [("title", .str "Utah Beach")]),
   ("omaha", .obj [("title", .str "Omaha Beach")]),
   ("purpleheartlane", .obj [("title", .str "Purple Heart Lane")]),
   ("hill400", .obj [("title", .str "Hill 400")]),
   ("remagen", .obj [("title", .str "Remagen")]),
   ("kursk", .obj [("title", .str "Kursk")]),
   ("stalingrad", .obj [("title", .str "Stalingrad")]),
   ("elalamein", .obj [("title", .str "El Alamein")]),
   ("driel", .obj [("title", .str "Driel")]),
   ("mortain", .obj [("title", .str "Mortain")])]

/-- A DataManager whose maps category holds the flat fifteen-item data. -/
def dmC1 : DataManager := ⟨fun c => if c = "maps" then mapsFlatData else []⟩

/-- The assets root of Scenario 4: a 1 MiB thumbnail and five 6 MiB
additional images (31 MiB in total). -/
def scen4FS : AssetFS :=
  ⟨true, [("thumb.png", 1048576),
          ("img1.png", 6291456), ("img2.png", 6291456), ("img3.png", 6291456),
          ("img4.png", 6291456), ("img5.png", 6291456)]⟩

/-- The additional image references of Scenario 4, in declared order. -/
def scen4Imgs : List String := ["img1.png", "img2.png", "img3.png", "img4.png", "img5.png"]

/-- Twenty-six faction keys. -/
def manyFactions : List String :=
  ["f01", "f02", "f03", "f04", "f05", "f06", "f07", "f08", "f09", "f10",
   "f11", "f12", "f13", "f14", "f15", "f16", "f17", "f18", "f19", "f20",
   "f21", "f22", "f23", "f24", "f25", "f26"]

/-- Twenty-six well-formed map records. -/
def manyMaps : PyDict :=
  [("m01", .obj [("terrain", .str "Plains")]), ("m02", .obj [("terrain", .str "Plains")]),
   ("m03", .obj [("terrain", .str "Plains")]), ("m04", .obj [("terrain", .str "Plains")]),
   ("m05", .obj [("terrain", .str "Plains")]), ("m06", .obj [("terrain", .str "Plains")]),
   ("m07", .obj [("terrain", .str "Plains")]), ("m08", .obj [("terrain", .str "Plains")]),
   ("m09", .obj [("terrain", .str "Plains")]), ("m10", .obj [("terrain", .str "Plains")]),
   ("m11", .obj [("terrain", .str "Plains")]), ("m12", .obj [("terrain", .str "Plains")]),
   ("m13", .obj [("terrain", .str "Plains")]), ("m14", .obj [("terrain", .str "Plains")]),
   ("m15", .obj [("terrain", .str "Plains")]), ("m16", .obj [("terrain", .str "Plains")]),
   ("m17", .obj [("terrain", .str "Plains")]), ("m18", .obj [("terrain", .str "Plains")]),
   ("m19", .obj [("terrain", .str "Plains")]), ("m20", .obj [("terrain", .str "Plains")]),
   ("m21", .obj [("terrain", .str "Plains")]), ("m22", .obj [("terrain", .str "Plains")]),
   ("m23", .obj [("terrain", .str "Plains")]), ("m24", .obj [("terrain", .str "Plains")]),
   ("m25", .obj [("terrain", .str "Plains")]), ("m26", .obj [("terrain", .str "Plains")])]

/-- A ten-entry category whose entry bad holds null instead of a record. -/
def c7Data : PyDict :=
  [("a1", .obj [("display_name", .str "Item One")]),
   ("a2", .obj [("display_name", .str "Item Two")]),
   ("a3", .obj [("display_name", .str "Item Three")]),
   ("a4", .obj [("display_name", .str "Item Four")]),
   ("bad", .null),
   ("a5", .obj [("display_name", .str "Item Five")]),
   ("a6", .obj [("display_name", .str "Item Six")]),
   ("a7", .obj [("display_name", .str "Item Seven")]),
   ("a8", .obj [("display_name", .str "Item Eight")]),
   ("a9", .obj [("display_name", .str "Item Nine")])]

/-- A DataManager whose tanks category holds the ten-entry data with one
malformed record. -/
def dmC7 : DataManager := ⟨fun c => if c = "tanks" then c7Data else []⟩

/-- A faction-partitioned category in the shape of the tanks data. -/
def dmC8 : DataManager :=
  ⟨fun c => if c = "tanks" then
      [("us", .obj [("sherman", .obj [("title", .str "M4 Sherman")])]),
       ("german", .obj [("tiger", .obj [("title", .str "Tiger I")])])]
    else []⟩

/-- An input on which stripping the marker is not idempotent: the residue of
the overlapping occurrences reassembles a fresh marker. -/
def c9Bad : String := "attachment://attachment:attachment:////"

/-- A category holding one item with an empty record. -/
def dmC10 : DataManager :=
  ⟨fun c => if c = "weapons" then [("empty", .obj [])] else []⟩

/-! ## Sanity checks and claim theorems -/

/-- sanity -/
example : pyTruthy (.obj []) = false := by decide

example : mapDescription "" = "Tactical map information available" := by decide

example : mkOption "bad" JVal.null = fallbackOption "bad" := rfl
example : "ab".data = ['a', 'b'] := by decide

example : (([("a", JVal.null)] : PyDict).lookup "a") = some JVal.null := rfl

example : pyTitle "carentan_map" = "Carentan_Map" := by decide

example : rstripSlashes "https://x.org//" = "https://x.org" := by decide

example : pyReplace "aabb" "ab" "" = "ab" := by decide

example : normalizeAttachmentRef "attachment://foy.png" = "foy.png" := by decide

example : pathSuffix "Foy.PNG" = ".PNG" := by decide

example : pathSuffix "notes" = "" := by decide

example : pathSuffix ".bashrc" = "" := by decide

example : pyIntHex? "0x5865F2" = some 0x5865F2 := by decide

example : pyIntHex? "red" = none := by decide

example : pyIntHex? " -0Xff " = some (-255) := by decide

/-! ## Claim C1: faction listing on a flat category -/

/-- Claim C1 is false on the code: for a flat category of fifteen item
records, get_factions returns the fifteen item keys, not the empty list, and
the generic command flow therefore shows the faction selector instead of
going directly to item selection. -/
theorem C1_counterexample :
    get_factions dmC1 "maps" ≠ [] ∧
    (get_factions dmC1 "maps").length = 15 ∧
    create_command_flow dmC1 "maps" =
      .factionPending (mapsFlatData.map Prod.fst) :=
  ⟨by decide, rfl, rfl⟩

/-- Claim C1, amended: get_factions returns the full list of top-level keys
of the category data, so a flat category exposes its item keys as factions;
get_items still returns the whole mapping; and the flow goes directly to item
selection exactly when there is at most one top-level key (and the data is
nonempty), while two or more keys route to the faction selector. -/
theorem C1_flat_category_listing (dm : DataManager) (cat : String) :
    get_factions dm cat = (dm.load_data cat).map Prod.fst ∧
    get_items dm cat none = .obj (dm.load_data cat) ∧
    (2 ≤ (dm.load_data cat).length →
      create_command_flow dm cat = .factionPending ((dm.load_data cat).map Prod.fst)) ∧
    ((dm.load_data cat).length ≤ 1 → dm.load_data cat ≠ [] →
      create_command_flow dm cat = .itemPending (.obj (dm.load_data cat))) := by
  refine ⟨rfl, rfl, ?_, ?_⟩
  · intro h
    have h' : ¬ (get_factions dm cat).length ≤ 1 := by
      simp only [get_factions, List.length_map]
      omega
    simp only [create_command_flow]
    rw [if_neg h']
    rfl
  · intro h1 h2
    have h' : (get_factions dm cat).length ≤ 1 := by
      simp only [get_factions, List.length_map]
      omega
    have ht : pyTruthy (get_items dm cat none) = true := by
      simp [get_items, pyTruthy, h2]
    simp only [create_command_flow]
    rw [if_pos h', if_pos ht]
    rfl

/-- Witness for C1_flat_category_listing at the concrete flat data. -/
theorem C1_flat_category_listing_witness :
    create_command_flow dmC1 "maps" =
      .factionPending ((dmC1.load_data "maps").map Prod.fst) :=
  (C1_flat_category_listing dmC1 "maps").2.2.1 (by decide)

/-! ## Claim C2: color parse fallback in create_embed -/

/-- Claim C2 is false on the code: a color field holding a number (any
non-string) makes the int conversion raise TypeError, which the except clause
(catching only ValueError) does not intercept, so create_embed raises instead
of falling back to the default color. -/
theorem C2_counterexample :
    create_embed_color [("color", JVal.num 5)] = .error .typeError := rfl

/-- Claim C2, amended: renderItem falls back to the fixed default color
0x5865F2 without raising whenever the color field is absent or holds a string
(a failing hex parse is a ValueError, which is caught); only a color field of
non-string type escapes the fallback and raises. -/
theorem C2_color_fallback (item : PyDict)
    (h : ∀ v, item.lookup "color" = some v → ∃ s, v = JVal.str s) :
    (∃ n, create_embed_color item = .ok n) ∧
    (∀ s, item.lookup "color" = some (.str s) → pyIntHex? s = none →
      create_embed_color item = .ok defaultEmbedColor) := by
  constructor
  · cases hl : item.lookup "color" with
    | none =>
      refine ⟨0x5865F2, ?_⟩
      unfold create_embed_color
      rw [hl]
      rfl
    | some v =>
      obtain ⟨s, rfl⟩ := h v hl
      cases hp : pyIntHex? s with
      | none =>
        refine ⟨defaultEmbedColor, ?_⟩
        unfold create_embed_color
        rw [hl]
        simp [hp]
      | some n =>
        refine ⟨n, ?_⟩
        unfold create_embed_color
        rw [hl]
        simp [hp]
  · intro s hl hp
    unfold create_embed_color
    rw [hl]
    simp [hp]

/-- Witness for C2_color_fallback: an unparsable string color falls back to
the default, and an absent color parses the default string. -/
theorem C2_color_fallback_witness :
    create_embed_color [("color", JVal.str "notacolor")] = .ok defaultEmbedColor ∧
    create_embed_color [("title", JVal.str "Foy")] = .ok 0x5865F2 := by
  constructor
  · exact (C2_color_fallback [("color", JVal.str "notacolor")]
      (fun v hv => ⟨"notacolor", by
        have : some (JVal.str "notacolor") = some v := hv
        cases this
        rfl⟩)).2 "notacolor" rfl rfl
  · obtain ⟨n, hn⟩ := (C2_color_fallback [("title", JVal.str "Foy")]
      (fun v hv => by cases hv)).1
    have : n = 0x5865F2 := by
      have h2 : create_embed_color [("title", JVal.str "Foy")] = .ok 0x5865F2 := rfl
      rw [h2] at hn
      cases hn
      rfl
    rw [← this]
    exact hn

/-! ## Claim C3: response asset budget in get_files -/

/-- Claim C3, confirmed: under the external policy get_files attaches
nothing; under the local policy it returns all successfully fetched sources
(thumbnail first, then the additional images in declared order, as built by
fetchFiles) unless their summed byte size exceeds the 25 MiB budget, in which
case it returns the truncation to the first 3 fetched sources and reports the
budget as exceeded. -/
theorem C3_prepare_response_assets :
    (∀ (fs : AssetFS) (thumbnail : Option String) (imgs : List String) (st : AssetState),
       (get_files true fs thumbnail imgs st).1 = ⟨[], false⟩) ∧
    (∀ (fs : AssetFS) (thumbnail : Option String) (imgs : List String) (st : AssetState),
       ((((fetchFiles fs thumbnail imgs st).1.map ByteSource.size).sum > sizeBudget →
          (get_files false fs thumbnail imgs st).1 =
            ⟨(fetchFiles fs thumbnail imgs st).1.take 3, true⟩) ∧
        (((fetchFiles fs thumbnail imgs st).1.map ByteSource.size).sum ≤ sizeBudget →
          (get_files false fs thumbnail imgs st).1 =
            ⟨(fetchFiles fs thumbnail imgs st).1, false⟩) ∧
        (3 ≤ (fetchFiles fs thumbnail imgs st).1.length →
         (((fetchFiles fs thumbnail imgs st).1.map ByteSource.size).sum > sizeBudget →
          (get_files false fs thumbnail imgs st).1.files.length = 3)))) := by
  refine ⟨fun fs t imgs st => rfl, fun fs t imgs st => ?_⟩
  have hexceed : (((fetchFiles fs t imgs st).1.map ByteSource.size).sum > sizeBudget →
      (get_files false fs t imgs st).1 = ⟨(fetchFiles fs t imgs st).1.take 3, true⟩) := by
    intro h
    simp only [get_files]
    rw [if_neg Bool.false_ne_true, if_pos h]
  refine ⟨hexceed, ?_, ?_⟩
  · intro h
    simp only [get_files]
    rw [if_neg Bool.false_ne_true, if_neg (by omega)]
  · intro hlen h
    rw [hexceed h]
    simp only [List.length_take]
    omega

/-- Witness for C3_prepare_response_assets at Scenario 4: the 31 MiB sum
exceeds the budget, exactly the first 3 fetched sources come back with the
exceeded flag set, and the external policy attaches nothing. -/
theorem C3_prepare_response_assets_witness :
    (get_files false scen4FS (some "thumb.png") scen4Imgs initialAssetState).1 =
      ⟨[⟨"thumb.png", 1048576⟩, ⟨"img1.png", 6291456⟩, ⟨"img2.png", 6291456⟩], true⟩ ∧
    (get_files false scen4FS (some "thumb.png") scen4Imgs initialAssetState).1.files.length = 3 ∧
    (get_files true scen4FS (some "thumb.png") scen4Imgs initialAssetState).1 = ⟨[], false⟩ := by
  have h := C3_prepare_response_assets
  have h2 := (h.2 scen4FS (some "thumb.png") scen4Imgs initialAssetState).1 (by decide)
  refine ⟨?_, ?_, h.1 scen4FS (some "thumb.png") scen4Imgs initialAssetState⟩
  · rw [h2]
    rfl
  · rw [h2]
    rfl

/-! ## Claim C4: asset cache invariant -/

/-- Members of a cacheInsert come from the old cache or are the new key. -/
theorem mem_cacheInsert {c : List String} {k f : String}
    (h : f ∈ cacheInsert c k) : f ∈ c ∨ f = k := by
  unfold cacheInsert at h
  split at h
  · exact Or.inl h
  · rcases List.mem_append.mp h with h1 | h1
    · exact Or.inl h1
    · exact Or.inr (List.mem_singleton.mp h1)

/-- Members of a fold of cacheInsert come from the start cache or the
inserted list. -/
theorem mem_foldl_cacheInsert {l c : List String} {f : String}
    (h : f ∈ l.foldl cacheInsert c) : f ∈ c ∨ f ∈ l := by
  induction l generalizing c with
  | nil => exact Or.inl h
  | cons x xs ih =>
    rcases ih (c := cacheInsert c x) h with h1 | h1
    · rcases mem_cacheInsert h1 with h2 | h2
      · exact Or.inl h2
      · exact Or.inr (by simp [h2])
    · exact Or.inr (List.mem_cons_of_mem _ h1)

/-- A filename listed by iterdirFiles names an existing file. -/
theorem iterdir_exists {fs : AssetFS} {f : String}
    (h : f ∈ iterdirFiles fs) : fileExists fs f = true := by
  unfold iterdirFiles at h
  have h1 := (List.mem_filter.mp h).1
  obtain ⟨p, hp, rfl⟩ := List.mem_map.mp h1
  unfold fileExists
  rw [List.any_eq_true]
  exact ⟨p, hp, by simp⟩

/-- Membership in the cache after initialize_asset_cache: an old member, or a
directly-listed image file. -/
theorem mem_initialize_asset_cache {fs : AssetFS} {st : AssetState} {f : String}
    (h : f ∈ (initialize_asset_cache fs st).cache) :
    f ∈ st.cache ∨ (f ∈ iterdirFiles fs ∧ isImageFile f = true) := by
  unfold initialize_asset_cache at h
  split at h
  · exact Or.inl h
  · split at h
    · exact Or.inl h
    · rcases mem_foldl_cacheInsert h with h1 | h1
      · exact Or.inl h1
      · exact Or.inr ⟨(List.mem_filter.mp h1).1, (List.mem_filter.mp h1).2⟩

/-- Claim C4 is false on the code: with a single plain text file under the
assets root, the cache-miss direct-probe fallback of get_asset_file inserts
that file into the cache although its extension is outside the supported
image set, so the claimed invariant is violated right after the operation. -/
theorem C4_counterexample :
    ((get_asset_file false ⟨true, [("notes.txt", 5)]⟩ "notes.txt" initialAssetState).2.cache
      = ["notes.txt"]) ∧
    isImageFile "notes.txt" = false ∧
    ((get_asset_file false ⟨true, [("notes.txt", 5)]⟩ "notes.txt" initialAssetState).1
      = some ⟨"notes.txt", 5⟩) := by
  refine ⟨rfl, by decide, rfl⟩

/-- Claim C4, amended: every AssetStore operation (initial build, cache-miss
direct-probe fallback, explicit refresh) preserves that each cache entry
names an existing file under the assets root; the initial build and the
refresh moreover insert only filenames directly under the root with
supported image extensions, but the fallback inserts any existing filename
without checking its extension. -/
theorem C4_cache_invariant (fs : AssetFS) (st : AssetState) (filename : String) (ue : Bool)
    (hinv : ∀ f ∈ st.cache, fileExists fs f = true) :
    (∀ f ∈ (initialize_asset_cache fs st).cache, fileExists fs f = true) ∧
    (∀ f ∈ (get_asset_file ue fs filename st).2.cache, fileExists fs f = true) ∧
    (∀ f ∈ (refresh_asset_cache fs st).cache,
       fileExists fs f = true ∧ isImageFile f = true ∧ f ∈ iterdirFiles fs) := by
  have hinit : ∀ f ∈ (initialize_asset_cache fs st).cache, fileExists fs f = true := by
    intro f hf
    rcases mem_initialize_asset_cache hf with h | h
    · exact hinv f h
    · exact iterdir_exists h.1
  refine ⟨hinit, ?_, ?_⟩
  · intro f hf
    simp only [get_asset_file] at hf
    split at hf
    · exact hinv f hf
    · split at hf
      · exact hinit f hf
      · split at hf
        · rename_i hprobe
          dsimp only at hf
          rcases mem_cacheInsert hf with h | h
          · exact hinit f h
          · subst h
            exact hprobe
        · exact hinit f hf
  · intro f hf
    unfold refresh_asset_cache at hf
    rcases mem_initialize_asset_cache hf with h | h
    · cases h
    · exact ⟨iterdir_exists h.1, h.2, h.1⟩

/-- Witness for C4_cache_invariant: after a fallback fetch of an existing
image, its cache entry indeed names an existing file. -/
theorem C4_cache_invariant_witness :
    fileExists ⟨true, [("foy.png", 7)]⟩ "foy.png" = true :=
  (C4_cache_invariant ⟨true, [("foy.png", 7)]⟩ initialAssetState "foy.png" false
    (by intro f hf; cases hf)).2.1 "foy.png" (by decide)

/-! ## Claim C5: asset URL resolution -/

/-- The head surviving a dropWhile fails the predicate. -/
theorem dropWhile_head_false {p : Char → Bool} :
    ∀ (l : List Char) (x : Char) (xs : List Char),
      l.dropWhile p = x :: xs → p x = false := by
  intro l
  induction l with
  | nil => intro x xs h; cases h
  | cons a as ih =>
    intro x xs h
    rw [List.dropWhile_cons] at h
    split at h
    · exact ih x xs h
    · rename_i hpa
      cases h
      exact Bool.eq_false_iff.mpr hpa

/-- The URL base with trailing slashes stripped never ends in a slash. -/
theorem rstripSlashes_no_trailing (s : String) (c : Char)
    (hc : (rstripSlashes s).data.getLast? = some c) : c ≠ '/' := by
  intro hcontra
  subst hcontra
  have hc' : (s.data.reverse.dropWhile (fun c => c = '/')).head? = some '/' := by
    rw [← List.getLast?_reverse]
    exact hc
  cases hl : s.data.reverse.dropWhile (fun c => c = '/') with
  | nil => rw [hl] at hc'; cases hc'
  | cons x xs =>
    rw [hl] at hc'
    have hx : x = '/' := by
      simpa using hc'
    have hfalse := dropWhile_head_false (s.data.reverse) x xs hl
    rw [hx] at hfalse
    simp at hfalse

/-- Claim C5 is false on the code: under the External policy with an empty
(unset) base URL, get_asset_url does not build the external URL from the
stripped base; it falls back to the attachment reference instead. -/
theorem C5_counterexample :
    get_asset_url true "" "a.png" = "attachment://a.png" ∧
    get_asset_url true "" "a.png" ≠ rstripSlashes "" ++ "/" ++ "a.png" := by
  exact ⟨rfl, by decide⟩

/-- Claim C5, amended: under the External policy with a nonempty base URL,
get_asset_url returns the base URL with every trailing slash stripped, a
slash and the filename; under the Local policy — or under the External
policy with an empty base URL — it returns the attachment placeholder
reference; it is total, and the stripped base never ends in a slash. -/
theorem C5_resolve_url (baseUrl filename : String) :
    (baseUrl ≠ "" →
      get_asset_url true baseUrl filename = rstripSlashes baseUrl ++ "/" ++ filename) ∧
    get_asset_url false baseUrl filename = "attachment://" ++ filename ∧
    get_asset_url true "" filename = "attachment://" ++ filename ∧
    (∀ c, (rstripSlashes baseUrl).data.getLast? = some c → c ≠ '/') := by
  refine ⟨?_, ?_, ?_, fun c hc => rstripSlashes_no_trailing baseUrl c hc⟩
  · intro h
    unfold get_asset_url
    rw [if_pos ⟨rfl, h⟩]
  · unfold get_asset_url
    rw [if_neg (fun hcontra => Bool.false_ne_true hcontra.1)]
  · unfold get_asset_url
    rw [if_neg (fun hcontra => hcontra.2 rfl)]

/-- Witness for C5_resolve_url: a base URL carrying two trailing slashes is
joined with exactly one slash. -/
theorem C5_resolve_url_witness :
    get_asset_url true "https://cdn.example.org//" "m.png" =
      "https://cdn.example.org/m.png" := by
  have h := (C5_resolve_url "https://cdn.example.org//" "m.png").1 (by decide)
  rw [h]
  decide

/-! ## Claim C6: the 25-option cap across the dropdowns -/

/-- Claim C6 is false on the code: the 25-option cap is not universal — the
faction selector and the persistent map dropdown both hand 26 options to
their widgets for 26 factions and 26 maps. -/
theorem C6_counterexample :
    (factionSelectorOptions manyFactions).length = 26 ∧
    (match persistentMapOptions manyMaps with
     | .ok opts => opts.length
     | .error _ => 0) = 26 := by
  constructor
  · rfl
  · rfl

/-- Claim C6, amended: only the item selector truncates its page to at most
25 options (the rendering-layer truncation of the full item mapping); the
faction selector and the persistent map dropdown pass one option per entry
with no cap. -/
theorem C6_option_caps (items : PyDict) (factions : List String) (md : PyDict)
    (opts : List SelectOption) (hmd : persistentMapOptions md = .ok opts) :
    (baseSelectorShownOptions items).length ≤ 25 ∧
    (factionSelectorOptions factions).length = factions.length ∧
    (md ≠ [] → opts.length = md.length) := by
  refine ⟨List.length_take_le 25 (baseSelectorOptions items), ?_, ?_⟩
  · exact List.length_map factions factionOption
  · intro hne
    have hlist : mapOptionList md = .ok opts := by
      unfold persistentMapOptions at hmd
      rw [if_neg (by simpa [List.isEmpty_iff] using hne)] at hmd
      exact hmd
    clear hmd hne
    induction md generalizing opts with
    | nil => cases hlist; rfl
    | cons p rest ih =>
      unfold mapOptionList at hlist
      cases hx : mapOptionTry p.1 p.2 with
      | error e => rw [hx] at hlist; cases hlist
      | ok o =>
        rw [hx] at hlist
        cases hrest : mapOptionList rest with
        | error e => rw [hrest] at hlist; cases hlist
        | ok os =>
          rw [hrest] at hlist
          cases hlist
          simp [ih os hrest]

/-- Witness for C6_option_caps at small concrete inputs. -/
theorem C6_option_caps_witness :
    (baseSelectorShownOptions [("sherman", JVal.obj [])]).length ≤ 25 ∧
    (factionSelectorOptions ["us", "german"]).length = 2 ∧
    ([{ label := JVal.str "Foy", value := "foy",
        description := JVal.str "Tactical map information available",
        emoji := JVal.str "🗺️" }] : List SelectOption).length =
      ([("foy", JVal.obj [])] : PyDict).length := by
  have h := C6_option_caps [("sherman", JVal.obj [])] ["us", "german"]
    [("foy", JVal.obj [])]
    [{ label := JVal.str "Foy", value := "foy",
       description := JVal.str "Tactical map information available",
       emoji := JVal.str "🗺️" }] rfl
  exact ⟨h.1, h.2.1, h.2.2 (List.cons_ne_nil _ _)⟩

/-! ## Claim C7: malformed item records and listItems -/

/-- Claim C7 is false on the code: the malformed null entry is not skipped
from enumeration — get_items returns the full mapping still containing the
key bad (mapped to null), so the malformed entry remains among the items
listItems exposes.  (The valid entries do remain enumerable.) -/
theorem C7_counterexample :
    get_items dmC7 "tanks" none = .obj c7Data ∧
    hasKey c7Data "bad" = true ∧
    c7Data.lookup "bad" = some JVal.null ∧
    (c7Data.map Prod.fst).length = 10 :=
  ⟨rfl, by decide, rfl, rfl⟩

/-- Claim C7, amended: a malformed (null) entry stays in the mapping
get_items returns, so it is still enumerable; robustness lives one layer up:
the dropdown renders every entry — the malformed one as the fixed fallback
option — so the listing is never blanked or aborted, and selecting the
malformed entry resolves to null, which the callback treats as NotFound. -/
theorem C7_malformed_entry (dm : DataManager) (cat key : String)
    (hbad : (dm.load_data cat).lookup key = some JVal.null) :
    get_items dm cat none = .obj (dm.load_data cat) ∧
    mkOption key JVal.null = fallbackOption key ∧
    (baseSelectorOptions (dm.load_data cat)).length = (dm.load_data cat).length ∧
    get_item dm cat key none = .ok JVal.null ∧
    callbackTreatsAsNotFound JVal.null = true := by
  have hne : dm.load_data cat ≠ [] := by
    intro h0
    rw [h0] at hbad
    cases hbad
  refine ⟨rfl, rfl, ?_, ?_, rfl⟩
  · unfold baseSelectorOptions
    rw [if_neg (by simpa [List.isEmpty_iff] using hne)]
    exact List.length_map _ _
  · have hx : get_item dm cat key none =
        Except.ok (((dm.load_data cat).lookup key).getD emptyRecord) := rfl
    rw [hx, hbad]
    rfl

/-- Witness for C7_malformed_entry at the concrete ten-entry data. -/
theorem C7_malformed_entry_witness :
    get_item dmC7 "tanks" "bad" none = .ok JVal.null ∧
    (baseSelectorOptions c7Data).length = 10 := by
  have h := C7_malformed_entry dmC7 "tanks" "bad" rfl
  exact ⟨h.2.2.2.1, h.2.2.1⟩

/-! ## Claim C8: resolveItem as a pure lookup in listItems -/

/-- Claim C8, confirmed: whenever listItems returns a mapping (it always
does unless a faction key holds a non-object value), get_item is exactly the
lookup of the key in that mapping with the empty record as the NotFound
default — the item comes back iff the key is a member, the NotFound encoding
otherwise, uniformly over unknown categories and factions. -/
theorem C8_resolve_is_lookup (dm : DataManager) (cat key : String)
    (faction : Option String) (fields : PyDict)
    (h : get_items dm cat faction = .obj fields) :
    get_item dm cat key faction = .ok ((fields.lookup key).getD emptyRecord) ∧
    (∀ v, fields.lookup key = some v → get_item dm cat key faction = .ok v) ∧
    (fields.lookup key = none → get_item dm cat key faction = .ok emptyRecord) := by
  have hbase : get_item dm cat key faction = .ok ((fields.lookup key).getD emptyRecord) := by
    unfold get_item
    rw [h]
  refine ⟨hbase, ?_, ?_⟩
  · intro v hv
    rw [hbase, hv]
    rfl
  · intro hv
    rw [hbase, hv]
    rfl

/-- Witness for C8_resolve_is_lookup: a present key resolves to its record, a
key of the other faction resolves to the NotFound encoding, and an unknown
category also resolves to the NotFound encoding. -/
theorem C8_resolve_is_lookup_witness :
    get_item dmC8 "tanks" "sherman" (some "us") =
      .ok (.obj [("title", .str "M4 Sherman")]) ∧
    get_item dmC8 "tanks" "tiger" (some "us") = .ok emptyRecord ∧
    get_item dmC8 "planes" "sherman" none = .ok emptyRecord := by
  refine ⟨?_, ?_, ?_⟩
  · exact (C8_resolve_is_lookup dmC8 "tanks" "sherman" (some "us")
      [("sherman", .obj [("title", .str "M4 Sherman")])] rfl).2.1 _ rfl
  · exact (C8_resolve_is_lookup dmC8 "tanks" "tiger" (some "us")
      [("sherman", .obj [("title", .str "M4 Sherman")])] rfl).2.2 rfl
  · exact (C8_resolve_is_lookup dmC8 "planes" "sherman" none [] rfl).2.2 rfl

/-! ## Claim C9: idempotence of reference normalization -/

/-- Claim C9 is false on the code: normalization removes every occurrence of
the marker found in one scan, and the remaining text can reassemble a fresh
marker, so a second normalization strips further — normalize composed with
itself differs from normalize at this input. -/
theorem C9_counterexample :
    normalizeAttachmentRef (normalizeAttachmentRef c9Bad) ≠ normalizeAttachmentRef c9Bad ∧
    normalizeAttachmentRef c9Bad = "attachment://" ∧
    normalizeAttachmentRef (normalizeAttachmentRef c9Bad) = "" := by
  refine ⟨by decide, rfl, rfl⟩

/-- Claim C9, amended: normalization is idempotent on every reference whose
normalized form does not itself begin with the attachment marker — in
particular on any ordinary reference carrying the marker at most once as a
prefix; only adversarial inputs whose residue reassembles the marker escape
idempotence. -/
theorem C9_normalize_idempotent (s : String)
    (h : attachMarker.data.isPrefixOf (normalizeAttachmentRef s).data = false) :
    normalizeAttachmentRef (normalizeAttachmentRef s) = normalizeAttachmentRef s := by
  have hstep : normalizeAttachmentRef (normalizeAttachmentRef s) =
      if attachMarker.data.isPrefixOf (normalizeAttachmentRef s).data then
        pyReplace (normalizeAttachmentRef s) attachMarker ""
      else normalizeAttachmentRef s := rfl
  rw [hstep, h, if_neg Bool.false_ne_true]

/-- Witness for C9_normalize_idempotent at an ordinary prefixed reference. -/
theorem C9_normalize_idempotent_witness :
    normalizeAttachmentRef (normalizeAttachmentRef "attachment://foy.png") =
      normalizeAttachmentRef "attachment://foy.png" :=
  C9_normalize_idempotent "attachment://foy.png" (by decide)

/-! ## Claim C10: the empty mapping as the NotFound encoding -/

/-- Claim C10, confirmed: get_item returns the empty mapping both for an
absent key and for a key mapped to an empty record, so the two are
indistinguishable at the public interface, and the truthiness test of the
selection callback treats that value as NotFound. -/
theorem C10_empty_record_notfound (dm : DataManager) (cat key : String)
    (faction : Option String) (fields : PyDict)
    (h : get_items dm cat faction = .obj fields) :
    (fields.lookup key = none → get_item dm cat key faction = .ok emptyRecord) ∧
    (fields.lookup key = some emptyRecord → get_item dm cat key faction = .ok emptyRecord) ∧
    callbackTreatsAsNotFound emptyRecord = true := by
  have hbase : get_item dm cat key faction = .ok ((fields.lookup key).getD emptyRecord) := by
    unfold get_item
    rw [h]
  refine ⟨?_, ?_, rfl⟩
  · intro hv
    rw [hbase, hv]
    rfl
  · intro hv
    rw [hbase, hv]
    rfl

/-- Witness for C10_empty_record_notfound: a present-but-empty item and a
missing item come back identical, and the callback treats the value as
NotFound. -/
theorem C10_empty_record_notfound_witness :
    get_item dmC10 "weapons" "empty" none = .ok emptyRecord ∧
    get_item dmC10 "weapons" "missing" none = .ok emptyRecord ∧
    callbackTreatsAsNotFound emptyRecord = true := by
  refine ⟨?_, ?_, ?_⟩
  · exact (C10_empty_record_notfound dmC10 "weapons" "empty" none
      [("empty", JVal.obj [])] rfl).2.1 rfl
  · exact (C10_empty_record_notfound dmC10 "weapons" "missing" none
      [("empty", JVal.obj [])] rfl).1 rfl
  · exact (C10_empty_record_notfound dmC10 "weapons" "empty" none
      [("empty", JVal.obj [])] rfl).2.2
